import Mathlib

/-!
Verification of the backup pipeline orchestrator in `backup.py` from
udev-trigger-zfs-autobackup.

The program is a sequential pipeline: import pool → (optionally) decrypt →
run zfs-autobackup → set read-only → export, with per-stage error handling
and operator notification by mail or log.

Shallow embedding: every external effect (subprocess invocation, the
zfs-autobackup library call, logging, and calls into the mail helpers) is
recorded as an `Event` in a trace.  The outcomes of the five external calls
a single run can make are supplied by an `Env` oracle, so each Python
function becomes a pure Lean function from its arguments and the oracle to
the pair (emitted trace, returned value).  Python exceptions are modelled
with `Except PyExn`; a Python local variable that may be referenced before
assignment is modelled as an `Option`, with the reference raising
`UnboundLocalError` when it is `none`, exactly as CPython does.
-/

/-- Result record of `subprocess.run` / `subprocess.CompletedProcess`:
the argument vector, exit code, and captured stdout/stderr. -/
structure CompletedProcess where
  args : List String
  returncode : Int
  stdout : String
  stderr : String
deriving Repr, DecidableEq

/-- Oracle outcome of one `subprocess.run` invocation: either the external
tool ran to completion with some exit code and captured output, or the
invocation itself raised (e.g. `FileNotFoundError` when the executable is
missing). -/
inductive RunOutcome where
  | completed (returncode : Int) (stdout stderr : String)
  | raised (msg : String)
deriving Repr, DecidableEq

/-- Oracle outcome of the `ZfsAutobackup(args).run()` library call: either it
finished and reported a failed-dataset count (with the text captured from the
redirected stdout/stderr streams), or it raised. -/
inductive BackupOutcome where
  | finished (failed_datasets : Nat) (stdout stderr : String)
  | raised (msg : String)
deriving Repr, DecidableEq

/-- A Python exception value, as far as this program can observe one. -/
inductive PyExn where
  | calledProcessError (cmd : List String) (returncode : Int) (stdout stderr : String)
  | unboundLocal (name : String)
  | other (msg : String)
deriving Repr, DecidableEq

/-- Model of CPython str(e).  For `CalledProcessError` and
`UnboundLocalError` we use a fixed rendering of the interpreter message
(CPython quotes the command and variable name; the quotes are elided here
because only the shape of the message matters to the theorems). -/
def pyStr : PyExn → String
  | .calledProcessError cmd rc _ _ =>
      "Command " ++ String.intercalate " " cmd ++ " returned non-zero exit status "
        ++ toString rc ++ "."
  | .unboundLocal name =>
      "cannot access local variable " ++ name
        ++ " where it is not associated with a value"
  | .other msg => msg

/-- Model of `traceback.format_exc()` for the exception being handled.
The real text lists stack frames; the model keeps the deterministic part the
theorems rely on: it is a traceback header followed by the exception text. -/
def format_exc (e : PyExn) : String :=
  "Traceback (most recent call last):\n" ++ pyStr e

/-- One observable effect of a run.  `log`/`logError` are the shared logger,
`mailInfo`/`mailError`/`mailException` are calls into the mail helpers
(`mail`, `mail_error`, `mail_exception` — the Info/Error/Exception
notification categories), `cmd` is a `subprocess.run` invocation with its
argument vector and optional input data, and `backupRun` is the
`ZfsAutobackup(args).run()` invocation. -/
inductive Event where
  | log (msg : String)
  | logError (msg : String)
  | mailInfo (msg : String)
  | mailError (msg : String)
  | mailException (msg : String)
  | cmd (args : List String) (input_data : Option String)
  | backupRun (params : List String)
deriving Repr, DecidableEq

/-- Email section of the configuration, as used by `backup.py` (recipient
details are opaque to this module and omitted). -/
structure EmailConfig where
  send_autobackup_output : Bool
deriving Repr, DecidableEq

/-- Per-pool configuration consumed by the pipeline. -/
structure PoolConfig where
  passphrase : Option String
  autobackup_parameters : List String
deriving Repr, DecidableEq

/-- Application configuration: the device-label → pool-configuration mapping
(`config.pools.get`, modelled as a function to `Option`) and the optional
email configuration. -/
structure AppConfig where
  pools : String → Option PoolConfig
  email : Option EmailConfig

/-- The external world for one pipeline run: the outcome of each external
call the run can make, keyed by call site. -/
structure Env where
  importOutcome : RunOutcome
  decryptOutcome : RunOutcome
  backupOutcome : BackupOutcome
  readonlyOutcome : RunOutcome
  exportOutcome : RunOutcome

/-- `subprocess.run(command, input=input_data, text=True, check=True, ...)`:
with `check=True` a completed process with nonzero exit raises
`CalledProcessError` carrying the command, exit code and captured output;
a completed process with zero exit returns the `CompletedProcess`; an
invocation failure raises its own exception. -/
def subprocess_run (command : List String) (outcome : RunOutcome) :
    Except PyExn CompletedProcess :=
  match outcome with
  | .completed rc out err =>
      if rc ≠ 0 then .error (.calledProcessError command rc out err)
      else .ok ⟨command, rc, out, err⟩
  | .raised m => .error (.other m)

/-- `run_command` (backup.py lines 111-116): runs the command, and on
`CalledProcessError` logs the error and returns a synthesized
`CompletedProcess` built from the exception; any other exception
propagates. -/
def run_command (command : List String) (input_data : Option String)
    (outcome : RunOutcome) : List Event × Except PyExn CompletedProcess :=
  match subprocess_run command outcome with
  | .ok r => ([.cmd command input_data], .ok r)
  | .error (.calledProcessError c rc out err) =>
      ([.cmd command input_data,
        .logError ("An error occurred: " ++ pyStr (.calledProcessError c rc out err))],
       .ok ⟨c, rc, out, err⟩)
  | .error e => ([.cmd command input_data], .error e)

/-- `import_pool` (line 95-96): `zpool import <pool> -N`. -/
def import_pool (pool : String) (outcome : RunOutcome) :
    List Event × Except PyExn CompletedProcess :=
  run_command ["zpool", "import", pool, "-N"] none outcome

/-- `export_pool` (line 99-100): `zpool export <pool>`. -/
def export_pool (pool : String) (outcome : RunOutcome) :
    List Event × Except PyExn CompletedProcess :=
  run_command ["zpool", "export", pool] none outcome

/-- `decrypt_pool` (line 103-104): `zfs load-key <pool>` with the passphrase
as input data. -/
def decrypt_pool (pool passphrase : String) (outcome : RunOutcome) :
    List Event × Except PyExn CompletedProcess :=
  run_command ["zfs", "load-key", pool] (some passphrase) outcome

/-- `set_pool_readonly` (line 107-108): `zfs set readonly=on <pool>`. -/
def set_pool_readonly (pool : String) (outcome : RunOutcome) :
    List Event × Except PyExn CompletedProcess :=
  run_command ["zfs", "set", "readonly=on", pool] none outcome

/-- `run_zfs_autobackup` (lines 79-92): runs the ZfsAutobackup CLI with the
given arguments under stream redirection and returns
`(failed_datasets == 0, stdout, stderr)`; if `run()` raises, the exception
propagates (and the captured text is discarded). -/
def run_zfs_autobackup (args : List String) (outcome : BackupOutcome) :
    List Event × Except PyExn (Bool × String × String) :=
  match outcome with
  | .finished n out err => ([.backupRun args], .ok (n == 0, out, err))
  | .raised m => ([.backupRun args], .error (.other m))

/-- The `except` handler of `decrypt_and_backup` (lines 74-76).  Its f-string
interpolates the locals `stdout` and `stderr`; when the exception was raised
before line 57 bound them, CPython raises `UnboundLocalError` for `stdout`
out of the handler itself, so no `mail_exception` call happens and the new
exception propagates.  `captured` carries the bindings when they exist. -/
def inner_handler (e : PyExn) (captured : Option (String × String)) :
    List Event × Except PyExn (Option String) :=
  match captured with
  | some (out, err) =>
      ([.mailException ("An unexpected error occurred. Backup may have failed. Please investigate.\n\nError:\n"
          ++ pyStr e ++ "\n\nBackup output:\n" ++ out ++ "\n\n" ++ err)], .ok none)
  | none => ([], .error (.unboundLocal "stdout"))

/-- The decrypt stage of `decrypt_and_backup` (lines 49-54).  Returns
`ok (some ())` to continue, `ok none` for the early `return None` after a
failed decrypt, `error` when the decrypt invocation raised. -/
def decrypt_stage (device_label : String) (pool_config : PoolConfig)
    (env : Env) : List Event × Except PyExn (Option Unit) :=
  match pool_config.passphrase with
  | none => ([], .ok (some ()))
  | some p =>
      if p = "" then ([], .ok (some ()))
      else
        let r := decrypt_pool device_label p env.decryptOutcome
        match r.2 with
        | .error e => (.log ("Decrypting pool " ++ device_label) :: r.1, .error e)
        | .ok res =>
            if res.returncode ≠ 0 then
              (.log ("Decrypting pool " ++ device_label) :: r.1
                ++ [.mailError ("Failed to decrypt pool. Backup not yet run.\n\nError:\n" ++ res.stderr)],
               .ok none)
            else (.log ("Decrypting pool " ++ device_label) :: r.1, .ok (some ()))

/-- Events of the backup-warning branch (lines 58-66): when the success flag
is false or stderr is non-empty, notify degradation (gated on the email
configuration); otherwise log stdout when non-empty. -/
def backup_warn_events (config : AppConfig) (success : Bool)
    (stdout stderr : String) : List Event :=
  if success = false ∨ stderr ≠ "" then
    match config.email with
    | none => [.log "ZFS autobackup error! Disk will not be exported automatically."]
    | some em =>
        if em.send_autobackup_output then
          [.mailError ("ZFS autobackup error! Disk will not be exported automatically:\n\n"
            ++ (if stderr ≠ "" then stderr else stdout))]
        else
          [.mailError "ZFS autobackup error! Disk will not be exported automatically. Check logs for details."]
  else if stdout ≠ "" then [.log stdout] else []

/-- The read-only failure notification of line 71, with the read-only stderr
and the backup stdout/stderr interpolated. -/
def readonly_fail_msg (ro_stderr stdout stderr : String) : String :=
  "Failed to set pool readonly. Disk will not be exported automatically.\n\nError:\n"
    ++ ro_stderr ++ "\n\nBackup was successful:\n" ++ stdout ++ "\n\n" ++ stderr

/-- `decrypt_and_backup` (lines 47-76): decrypt (when a non-empty passphrase
is configured), run the backup, notify on a degraded backup without
aborting, set the pool read-only, and return the captured backup stdout;
`ok none` models `return None`, `error` models an escaping exception. -/
def decrypt_and_backup (device_label : String) (pool_config : PoolConfig)
    (config : AppConfig) (env : Env) : List Event × Except PyExn (Option String) :=
  let d := decrypt_stage device_label pool_config env
  match d.2 with
  | .error e =>
      let h := inner_handler e none
      (d.1 ++ h.1, h.2)
  | .ok none => (d.1, .ok none)
  | .ok (some _) =>
      let startEv := Event.log ("Starting ZFS-Autobackup for pool " ++ device_label
        ++ " with parameters:\nzfs-autobackup "
        ++ String.intercalate " " pool_config.autobackup_parameters)
      let b := run_zfs_autobackup pool_config.autobackup_parameters env.backupOutcome
      match b.2 with
      | .error e =>
          let h := inner_handler e none
          (d.1 ++ startEv :: b.1 ++ h.1, h.2)
      | .ok (success, stdout, stderr) =>
          let warn := backup_warn_events config success stdout stderr
          let r := set_pool_readonly device_label env.readonlyOutcome
          let evs := d.1 ++ startEv :: b.1 ++ warn
            ++ Event.log ("Setting pool " ++ device_label ++ " to read-only") :: r.1
          match r.2 with
          | .error e =>
              let h := inner_handler e (some (stdout, stderr))
              (evs ++ h.1, h.2)
          | .ok res =>
              if res.returncode ≠ 0 then
                (evs ++ [.mailError (readonly_fail_msg res.stderr stdout stderr)], .ok none)
              else (evs, .ok (some stdout))

/-- The outer `except` handler of `import_decrypt_backup_export`
(lines 43-44): one `mail_error` with the exception text and the formatted
traceback. -/
def outer_handler_event (e : PyExn) : Event :=
  .mailError ("An unexpected error occurred. Backup may have failed. Please investigate.\n\nError:\n"
    ++ pyStr e ++ "\n" ++ format_exc e)

/-- The final completion notification (lines 36-41). -/
def completion_events (config : AppConfig) (device_label captured : String) :
    List Event :=
  match config.email with
  | none => [.log ("Backup finished. You can safely unplug the disk " ++ device_label ++ " now.")]
  | some em =>
      if em.send_autobackup_output then
        [.mailInfo ("Backup finished. You can safely unplug the disk " ++ device_label
          ++ " now.\n\nZFS-Autobackup output:\n" ++ captured)]
      else
        [.mailInfo ("Backup finished. You can safely unplug the disk " ++ device_label ++ " now.")]

/-- `import_decrypt_backup_export` (lines 12-44), the top-level entry point.
Returns the full event trace of the run; by construction it never raises,
matching the outer try/except that converts any exception into a single
`mail_error`. -/
def import_decrypt_backup_export (device_label : String) (config : AppConfig)
    (env : Env) : List Event :=
  match config.pools device_label with
  | none =>
      [.mailInfo ("Plugged in disk " ++ device_label
        ++ " that is not matching any configuration. You can unplug it again safely.")]
  | some pool_config =>
      let i := import_pool device_label env.importOutcome
      Event.log ("Importing pool " ++ device_label) :: i.1 ++
      match i.2 with
      | .error e => [outer_handler_event e]
      | .ok res =>
          if res.returncode ≠ 0 then
            [.mailError ("Failed to import pool. Backup not yet run.\n\nError:\n" ++ res.stderr)]
          else
            let db := decrypt_and_backup device_label pool_config config env
            db.1 ++
            match db.2 with
            | .error e => [outer_handler_event e]
            | .ok none => []
            | .ok (some captured) =>
                let ex := export_pool device_label env.exportOutcome
                Event.log ("Exporting " ++ device_label) :: ex.1 ++
                match ex.2 with
                | .error e => [outer_handler_event e]
                | .ok res3 =>
                    if res3.returncode ≠ 0 then
                      [.mailError ("Failed to export pool.\n\nError:\n" ++ res3.stderr)]
                    else completion_events config device_label captured

/-- Bool classifiers for counting notification events in a trace. -/
def isMailInfo : Event → Bool
  | .mailInfo _ => true
  | _ => false

def isMailError : Event → Bool
  | .mailError _ => true
  | _ => false

def isMailException : Event → Bool
  | .mailException _ => true
  | _ => false

def isMailEvent (e : Event) : Bool :=
  isMailInfo e || isMailError e || isMailException e

def isCmdEvent : Event → Bool
  | .cmd _ _ => true
  | _ => false

def isBackupRun : Event → Bool
  | .backupRun _ => true
  | _ => false

/-- Hypothesis shape: whenever the decrypt stage runs (non-empty configured
passphrase), the load-key command completes with exit 0. -/
def DecryptOk (pc : PoolConfig) (env : Env) : Prop :=
  ∀ p, pc.passphrase = some p → p ≠ "" → ∃ o e, env.decryptOutcome = .completed 0 o e

lemma decrypt_cases (pc : PoolConfig) (env : Env) (hdec : DecryptOk pc env) :
    pc.passphrase = none ∨ pc.passphrase = some "" ∨
      ∃ p o e, pc.passphrase = some p ∧ p ≠ "" ∧ env.decryptOutcome = .completed 0 o e := by
  cases hp : pc.passphrase with
  | none => exact Or.inl rfl
  | some p =>
      by_cases hpe : p = ""
      · subst hpe; exact Or.inr (Or.inl rfl)
      · obtain ⟨o, e, h⟩ := hdec p hp hpe
        exact Or.inr (Or.inr ⟨p, o, e, rfl, hpe, h⟩)

/-- Full trace of a run whose import succeeds, whose decrypt stage is skipped
(no or empty passphrase), and whose backup call finishes, with the read-only
and export stages completing with arbitrary exit codes. -/
lemma run_trace_nopass (device_label : String) (config : AppConfig)
    (pc : PoolConfig) (env : Env) (f : Nat) (bo be iso ise : String)
    (rc : Int) (rso rse : String) (ec : Int) (eso ese : String)
    (hcfg : config.pools device_label = some pc)
    (hp : pc.passphrase = none ∨ pc.passphrase = some "")
    (himp : env.importOutcome = .completed 0 iso ise)
    (hbk : env.backupOutcome = .finished f bo be)
    (hro : env.readonlyOutcome = .completed rc rso rse)
    (hex : env.exportOutcome = .completed ec eso ese) :
    import_decrypt_backup_export device_label config env =
      [.log ("Importing pool " ++ device_label),
       .cmd ["zpool", "import", device_label, "-N"] none,
       .log ("Starting ZFS-Autobackup for pool " ++ device_label
         ++ " with parameters:\nzfs-autobackup "
         ++ String.intercalate " " pc.autobackup_parameters),
       .backupRun pc.autobackup_parameters]
      ++ backup_warn_events config (f == 0) bo be
      ++ [.log ("Setting pool " ++ device_label ++ " to read-only"),
          .cmd ["zfs", "set", "readonly=on", device_label] none]
      ++ (if rc = 0 then
            [.log ("Exporting " ++ device_label),
             .cmd ["zpool", "export", device_label] none]
            ++ (if ec = 0 then completion_events config device_label bo
                else [.logError ("An error occurred: " ++ pyStr (.calledProcessError ["zpool", "export", device_label] ec eso ese)),
                      .mailError ("Failed to export pool.\n\nError:\n" ++ ese)])
          else
            [.logError ("An error occurred: " ++ pyStr (.calledProcessError ["zfs", "set", "readonly=on", device_label] rc rso rse)),
             .mailError (readonly_fail_msg rse bo be)]) := by
  rcases hp with hp | hp <;>
  · by_cases hrc : rc = 0 <;> by_cases hec : ec = 0 <;>
      simp [import_decrypt_backup_export, decrypt_and_backup, decrypt_stage,
        import_pool, set_pool_readonly, export_pool, run_command, subprocess_run,
        run_zfs_autobackup, hcfg, hp, himp, hbk, hro, hex, hrc, hec]

/-- Full trace of a run whose import succeeds and whose decrypt stage runs
with exit 0; otherwise as `run_trace_nopass`. -/
lemma run_trace_pass (device_label : String) (config : AppConfig)
    (pc : PoolConfig) (env : Env) (p : String) (f : Nat) (bo be iso ise dso dse : String)
    (rc : Int) (rso rse : String) (ec : Int) (eso ese : String)
    (hcfg : config.pools device_label = some pc)
    (hp : pc.passphrase = some p) (hpe : p ≠ "")
    (hdo : env.decryptOutcome = .completed 0 dso dse)
    (himp : env.importOutcome = .completed 0 iso ise)
    (hbk : env.backupOutcome = .finished f bo be)
    (hro : env.readonlyOutcome = .completed rc rso rse)
    (hex : env.exportOutcome = .completed ec eso ese) :
    import_decrypt_backup_export device_label config env =
      [.log ("Importing pool " ++ device_label),
       .cmd ["zpool", "import", device_label, "-N"] none,
       .log ("Decrypting pool " ++ device_label),
       .cmd ["zfs", "load-key", device_label] (some p),
       .log ("Starting ZFS-Autobackup for pool " ++ device_label
         ++ " with parameters:\nzfs-autobackup "
         ++ String.intercalate " " pc.autobackup_parameters),
       .backupRun pc.autobackup_parameters]
      ++ backup_warn_events config (f == 0) bo be
      ++ [.log ("Setting pool " ++ device_label ++ " to read-only"),
          .cmd ["zfs", "set", "readonly=on", device_label] none]
      ++ (if rc = 0 then
            [.log ("Exporting " ++ device_label),
             .cmd ["zpool", "export", device_label] none]
            ++ (if ec = 0 then completion_events config device_label bo
                else [.logError ("An error occurred: " ++ pyStr (.calledProcessError ["zpool", "export", device_label] ec eso ese)),
                      .mailError ("Failed to export pool.\n\nError:\n" ++ ese)])
          else
            [.logError ("An error occurred: " ++ pyStr (.calledProcessError ["zfs", "set", "readonly=on", device_label] rc rso rse)),
             .mailError (readonly_fail_msg rse bo be)]) := by
  by_cases hrc : rc = 0 <;> by_cases hec : ec = 0 <;>
    simp [import_decrypt_backup_export, decrypt_and_backup, decrypt_stage,
      import_pool, decrypt_pool, set_pool_readonly, export_pool, run_command, subprocess_run,
      run_zfs_autobackup, hcfg, hp, hpe, hdo, himp, hbk, hro, hex, hrc, hec]

lemma warn_countP_mailError (config : AppConfig) (success : Bool) (o e : String) :
    (backup_warn_events config success o e).countP isMailError =
      if (success = false ∨ e ≠ "") ∧ config.email ≠ none then 1 else 0 := by
  rcases hem : config.email with _ | em <;>
    by_cases hdeg : success = false ∨ e ≠ "" <;>
      by_cases hbo : o = "" <;>
        simp [backup_warn_events, hem, hdeg, hbo, isMailError]
  all_goals cases em.send_autobackup_output <;> simp [isMailError]

lemma warn_countP_mailInfo (config : AppConfig) (success : Bool) (o e : String) :
    (backup_warn_events config success o e).countP isMailInfo = 0 := by
  rcases hem : config.email with _ | em <;>
    by_cases hdeg : success = false ∨ e ≠ "" <;>
      by_cases hbo : o = "" <;>
        simp [backup_warn_events, hem, hdeg, hbo, isMailInfo]
  all_goals cases em.send_autobackup_output <;> simp [isMailInfo]

lemma completion_countP_mailError (config : AppConfig) (l c : String) :
    (completion_events config l c).countP isMailError = 0 := by
  rcases hem : config.email with _ | em <;>
    simp [completion_events, hem, isMailError]
  cases em.send_autobackup_output <;> simp [isMailError]

lemma completion_getLast_eq_head (config : AppConfig) (l c : String) :
    (completion_events config l c).getLast? = (completion_events config l c).head? := by
  rcases hem : config.email with _ | em <;> simp [completion_events, hem]
  cases em.send_autobackup_output <;> simp

lemma getLast?_append_completion (p1 w p2 p3 : List Event) (config : AppConfig)
    (l c : String) :
    (p1 ++ w ++ p2 ++ (p3 ++ completion_events config l c)).getLast? =
      (completion_events config l c).head? := by
  have h1 : p1 ++ w ++ p2 ++ (p3 ++ completion_events config l c)
      = (p1 ++ w ++ p2 ++ p3) ++ completion_events config l c := by simp
  rw [h1]
  rcases hem : config.email with _ | em
  · simp [completion_events, hem, List.getLast?_append]
  · cases hso : em.send_autobackup_output <;>
      simp [completion_events, hem, hso, List.getLast?_append]

theorem backup_degraded_no_abort (device_label : String) (config : AppConfig)
    (pc : PoolConfig) (env : Env) (f : Nat) (bo be iso ise rso rse eso ese : String)
    (hcfg : config.pools device_label = some pc)
    (hdec : DecryptOk pc env)
    (himp : env.importOutcome = .completed 0 iso ise)
    (hbk : env.backupOutcome = .finished f bo be)
    (hro : env.readonlyOutcome = .completed 0 rso rse)
    (hex : env.exportOutcome = .completed 0 eso ese) :
    ((f ≠ 0 ∨ be ≠ "") →
      (config.email = none →
        Event.log "ZFS autobackup error! Disk will not be exported automatically."
          ∈ import_decrypt_backup_export device_label config env ∧
        (import_decrypt_backup_export device_label config env).countP isMailError = 0) ∧
      (∀ em, config.email = some em →
        (import_decrypt_backup_export device_label config env).countP isMailError = 1 ∧
        (em.send_autobackup_output = true →
          Event.mailError ("ZFS autobackup error! Disk will not be exported automatically:\n\n"
            ++ (if be ≠ "" then be else bo)) ∈ import_decrypt_backup_export device_label config env) ∧
        (em.send_autobackup_output = false →
          Event.mailError "ZFS autobackup error! Disk will not be exported automatically. Check logs for details."
            ∈ import_decrypt_backup_export device_label config env))) ∧
    (f = 0 ∧ be = "" → (import_decrypt_backup_export device_label config env).countP isMailError = 0) ∧
    Event.cmd ["zfs", "set", "readonly=on", device_label] none ∈ import_decrypt_backup_export device_label config env ∧
    Event.cmd ["zpool", "export", device_label] none ∈ import_decrypt_backup_export device_label config env ∧
    (import_decrypt_backup_export device_label config env).getLast? =
      (completion_events config device_label bo).head? := by
  obtain hp | hp | ⟨p, o, e, hp, hpe, hdo⟩ := decrypt_cases pc env hdec
  on_goal 1 => rw [run_trace_nopass device_label config pc env f bo be iso ise 0 rso rse 0 eso ese hcfg (Or.inl hp) himp hbk hro hex]
  on_goal 2 => rw [run_trace_nopass device_label config pc env f bo be iso ise 0 rso rse 0 eso ese hcfg (Or.inr hp) himp hbk hro hex]
  on_goal 3 => rw [run_trace_pass device_label config pc env p f bo be iso ise o e 0 rso rse 0 eso ese hcfg hp hpe hdo himp hbk hro hex]
  all_goals
    refine ⟨?_, ?_, ?_, ?_, ?_⟩
    · intro hdeg
      constructor
      · intro hemnone
        constructor
        · rcases hdeg with hd | hd <;> simp [backup_warn_events, hemnone, hd]
        · simp [List.countP_append, warn_countP_mailError, completion_countP_mailError,
            hemnone, isMailError]
      · intro em hem
        refine ⟨?_, ?_, ?_⟩
        · rcases hdeg with hd | hd <;>
            simp [List.countP_append, warn_countP_mailError, completion_countP_mailError,
              hem, hd, isMailError]
        · intro hso
          rcases hdeg with hd | hd <;> simp [backup_warn_events, hem, hd, hso]
        · intro hso
          rcases hdeg with hd | hd <;> simp [backup_warn_events, hem, hd, hso]
    · rintro ⟨hf, hbe⟩
      subst hf; subst hbe
      by_cases hbo : bo = "" <;>
        simp [List.countP_append, backup_warn_events, completion_countP_mailError,
          hbo, isMailError]
    · simp
    · simp
    · simp only [reduceIte]
      exact getLast?_append_completion _ _ _ _ _ _ _

lemma run_command_events (c : List String) (i : Option String) (o : RunOutcome) :
    ∀ x ∈ (run_command c i o).1, x = .cmd c i ∨ ∃ m, x = Event.logError m := by
  intro x hx
  rcases o with ⟨rc, so, se⟩ | m
  · by_cases hz : rc = 0
    · simp [run_command, subprocess_run, hz] at hx
      exact Or.inl hx
    · simp [run_command, subprocess_run, hz] at hx
      rcases hx with hx | hx
      · exact Or.inl hx
      · exact Or.inr ⟨_, hx⟩
  · simp [run_command, subprocess_run] at hx
    exact Or.inl hx

lemma decrypt_stage_events (l : String) (pc : PoolConfig) (env : Env) :
    ∀ x ∈ (decrypt_stage l pc env).1,
      (∃ m, x = Event.log m) ∨ (∃ m, x = Event.logError m) ∨ (∃ m, x = Event.mailError m) ∨
      (∃ p, x = Event.cmd ["zfs", "load-key", l] (some p) ∧ pc.passphrase = some p ∧ p ≠ "") := by
  intro x hx
  cases hp : pc.passphrase with
  | none => simp [decrypt_stage, hp] at hx
  | some p =>
    by_cases hpe : p = ""
    · simp [decrypt_stage, hp, hpe] at hx
    · simp only [decrypt_stage, hp, if_neg hpe] at hx
      rcases hdo : env.decryptOutcome with ⟨rc, so, se⟩ | m
      · by_cases hz : rc = 0
        · simp only [hdo] at hx
          simp [decrypt_pool, run_command, subprocess_run, hz] at hx
          rcases hx with hx | hx
          · exact Or.inl ⟨_, hx⟩
          · exact Or.inr (Or.inr (Or.inr ⟨p, hx, rfl, hpe⟩))
        · simp only [hdo] at hx
          simp [decrypt_pool, run_command, subprocess_run, hz] at hx
          rcases hx with hx | hx | hx | hx
          · exact Or.inl ⟨_, hx⟩
          · exact Or.inr (Or.inr (Or.inr ⟨p, hx, rfl, hpe⟩))
          · exact Or.inr (Or.inl ⟨_, hx⟩)
          · exact Or.inr (Or.inr (Or.inl ⟨_, hx⟩))
      · simp only [hdo] at hx
        simp [decrypt_pool, run_command, subprocess_run] at hx
        rcases hx with hx | hx
        · exact Or.inl ⟨_, hx⟩
        · exact Or.inr (Or.inr (Or.inr ⟨p, hx, rfl, hpe⟩))

lemma warn_events_shape (config : AppConfig) (success : Bool) (o e : String) :
    ∀ x ∈ backup_warn_events config success o e,
      (∃ m, x = Event.log m) ∨ (∃ m, x = Event.mailError m) := by
  intro x hx
  by_cases hdeg : success = false ∨ e ≠ ""
  · rcases hem : config.email with _ | em
    · simp [backup_warn_events, hdeg, hem] at hx
      exact Or.inl ⟨_, hx⟩
    · cases hso : em.send_autobackup_output <;>
        simp [backup_warn_events, hdeg, hem, hso] at hx <;>
        exact Or.inr ⟨_, hx⟩
  · by_cases hbo : o = "" <;> simp [backup_warn_events, hdeg, hbo] at hx
    exact Or.inl ⟨_, hx⟩

lemma completion_events_shape (config : AppConfig) (l c : String) :
    ∀ x ∈ completion_events config l c,
      (∃ m, x = Event.log m) ∨ (∃ m, x = Event.mailInfo m) := by
  intro x hx
  rcases hem : config.email with _ | em
  · simp [completion_events, hem] at hx
    exact Or.inl ⟨_, hx⟩
  · cases hso : em.send_autobackup_output <;>
      simp [completion_events, hem, hso] at hx <;>
      exact Or.inr ⟨_, hx⟩

lemma inner_handler_events (e : PyExn) (captured : Option (String × String)) :
    ∀ x ∈ (inner_handler e captured).1, ∃ m, x = Event.mailException m := by
  intro x hx
  rcases captured with _ | ⟨o, err⟩ <;> simp [inner_handler] at hx
  exact ⟨_, hx⟩

lemma dab_all (l : String) (pc : PoolConfig) (config : AppConfig) (env : Env)
    (P : Event → Prop)
    (h1 : ∀ m, P (.log m)) (h2 : ∀ m, P (.logError m)) (h3 : ∀ m, P (.mailError m))
    (h4 : ∀ m, P (.mailException m)) (h5 : ∀ ps, P (.backupRun ps))
    (h6 : ∀ p, pc.passphrase = some p → p ≠ "" → P (.cmd ["zfs", "load-key", l] (some p)))
    (h7 : P (.cmd ["zfs", "set", "readonly=on", l] none)) :
    ∀ x ∈ (decrypt_and_backup l pc config env).1, P x := by
  have hds : ∀ y ∈ (decrypt_stage l pc env).1, P y := by
    intro y hy
    rcases decrypt_stage_events l pc env y hy with ⟨m, rfl⟩ | ⟨m, rfl⟩ | ⟨m, rfl⟩ | ⟨p, rfl, hp, hpe⟩
    · exact h1 m
    · exact h2 m
    · exact h3 m
    · exact h6 p hp hpe
  have hwarn : ∀ (s : Bool) (o e : String) y, y ∈ backup_warn_events config s o e → P y := by
    intro s o e y hy
    rcases warn_events_shape config s o e y hy with ⟨m, rfl⟩ | ⟨m, rfl⟩
    · exact h1 m
    · exact h3 m
  intro x hx
  simp only [decrypt_and_backup] at hx
  rcases hd : (decrypt_stage l pc env).2 with de | dok
  · rw [hd] at hx
    simp only [inner_handler] at hx
    simp at hx
    exact hds x hx
  · rw [hd] at hx
    rcases dok with _ | u
    · simp at hx
      exact hds x hx
    · rcases hb : env.backupOutcome with ⟨bf, bso, bse⟩ | bm
      · simp only [run_zfs_autobackup, hb] at hx
        rcases hro : env.readonlyOutcome with ⟨rrc, rso, rse⟩ | rm
        · by_cases hz : rrc = 0
          · simp [set_pool_readonly, run_command, subprocess_run, hro, hz, inner_handler] at hx
            repeat' rcases hx with hx | hx
            all_goals
              first
                | exact hds x hx
                | exact hwarn _ _ _ x hx
                | (subst hx; solve_by_elim)
                | solve_by_elim
          · simp [set_pool_readonly, run_command, subprocess_run, hro, hz, inner_handler] at hx
            repeat' rcases hx with hx | hx
            all_goals
              first
                | exact hds x hx
                | exact hwarn _ _ _ x hx
                | (subst hx; solve_by_elim)
                | solve_by_elim
        · simp only [set_pool_readonly, run_command, subprocess_run, hro] at hx
          simp [inner_handler] at hx
          repeat' rcases hx with hx | hx
          all_goals
            first
              | exact hds x hx
              | exact hwarn _ _ _ x hx
              | (subst hx; solve_by_elim)
              | solve_by_elim
      · simp only [run_zfs_autobackup, hb] at hx
        simp [inner_handler] at hx
        repeat' rcases hx with hx | hx
        all_goals
          first
            | exact hds x hx
            | exact hwarn _ _ _ x hx
            | (subst hx; solve_by_elim)
            | solve_by_elim

lemma pipeline_all (l : String) (config : AppConfig) (pc : PoolConfig) (env : Env)
    (P : Event → Prop)
    (hcfg : config.pools l = some pc)
    (h1 : ∀ m, P (.log m)) (h2 : ∀ m, P (.logError m)) (h3 : ∀ m, P (.mailInfo m))
    (h4 : ∀ m, P (.mailError m)) (h5 : ∀ m, P (.mailException m))
    (h6 : ∀ ps, P (.backupRun ps))
    (h7 : P (.cmd ["zpool", "import", l, "-N"] none))
    (h8 : ∀ p, pc.passphrase = some p → p ≠ "" → P (.cmd ["zfs", "load-key", l] (some p)))
    (h9 : P (.cmd ["zfs", "set", "readonly=on", l] none))
    (h10 : P (.cmd ["zpool", "export", l] none)) :
    ∀ x ∈ import_decrypt_backup_export l config env, P x := by
  have hdab : ∀ y ∈ (decrypt_and_backup l pc config env).1, P y :=
    dab_all l pc config env P h1 h2 h4 h5 h6 h8 h9
  have hcompl : ∀ (c : String) y, y ∈ completion_events config l c → P y := by
    intro c y hy
    rcases completion_events_shape config l c y hy with ⟨m, rfl⟩ | ⟨m, rfl⟩
    · exact h1 m
    · exact h3 m
  have himp : ∀ y ∈ (import_pool l env.importOutcome).1, P y := by
    intro y hy
    rcases run_command_events _ _ _ y hy with rfl | ⟨m, rfl⟩
    · exact h7
    · exact h2 m
  have hexp : ∀ y ∈ (export_pool l env.exportOutcome).1, P y := by
    intro y hy
    rcases run_command_events _ _ _ y hy with rfl | ⟨m, rfl⟩
    · exact h10
    · exact h2 m
  intro x hx
  simp only [import_decrypt_backup_export, hcfg] at hx
  rcases List.mem_cons.mp hx with rfl | hx
  · exact h1 _
  rcases List.mem_append.mp hx with hx | hx
  · exact himp x hx
  rcases hi2 : (import_pool l env.importOutcome).2 with ie | ir
  · simp only [hi2] at hx
    simp [outer_handler_event] at hx
    exact hx ▸ h4 _
  · simp only [hi2] at hx
    by_cases hz : ir.returncode ≠ 0
    · rw [if_pos hz] at hx
      simp at hx
      exact hx ▸ h4 _
    · rw [if_neg hz] at hx
      rcases List.mem_append.mp hx with hx | hx
      · exact hdab x hx
      rcases hdb : (decrypt_and_backup l pc config env).2 with de | dok
      · simp only [hdb] at hx
        simp [outer_handler_event] at hx
        exact hx ▸ h4 _
      · simp only [hdb] at hx
        rcases dok with _ | captured
        · simp at hx
        · rcases List.mem_cons.mp hx with rfl | hx
          · exact h1 _
          rcases List.mem_append.mp hx with hx | hx
          · exact hexp x hx
          rcases he2 : (export_pool l env.exportOutcome).2 with ee | er
          · simp only [he2] at hx
            simp [outer_handler_event] at hx
            exact hx ▸ h4 _
          · simp only [he2] at hx
            by_cases hez : er.returncode ≠ 0
            · rw [if_pos hez] at hx
              simp at hx
              exact hx ▸ h4 _
            · rw [if_neg hez] at hx
              exact hcompl _ x hx

/-- Claim C6: for a device identifier absent from the configuration mapping,
the run consists of exactly one Info notification (the
"not matching any configuration" message) and performs no external command
invocation and no backup invocation. -/
theorem unknown_device_single_info (device_label : String) (config : AppConfig)
    (env : Env) (h : config.pools device_label = none) :
    import_decrypt_backup_export device_label config env =
      [.mailInfo ("Plugged in disk " ++ device_label
        ++ " that is not matching any configuration. You can unplug it again safely.")] ∧
    (import_decrypt_backup_export device_label config env).countP isMailInfo = 1 ∧
    (import_decrypt_backup_export device_label config env).countP isCmdEvent = 0 ∧
    (import_decrypt_backup_export device_label config env).countP isBackupRun = 0 := by
  simp [import_decrypt_backup_export, h, isMailInfo, isCmdEvent, isBackupRun]

/-- Witness for C6 at a concrete unknown device. -/
theorem unknown_device_single_info_witness :
    import_decrypt_backup_export "diskA" ⟨fun _ => none, none⟩
        ⟨.completed 0 "" "", .completed 0 "" "", .finished 0 "" "", .completed 0 "" "", .completed 0 "" ""⟩ =
      [.mailInfo "Plugged in disk diskA that is not matching any configuration. You can unplug it again safely."] :=
  (unknown_device_single_info "diskA" ⟨fun _ => none, none⟩
    ⟨.completed 0 "" "", .completed 0 "" "", .finished 0 "" "", .completed 0 "" "", .completed 0 "" ""⟩ rfl).1

/-- Claim C7: when the import command exits nonzero, the trace is exactly
the log line, the `zpool import <device> -N` invocation, the runner error
log, and one Error notification containing the import stderr — the decrypt,
backup, read-only and export stages are never invoked; moreover for any
environment the pool import is always invoked with the `-N` flag. -/
theorem import_failure_aborts (device_label : String) (config : AppConfig)
    (pc : PoolConfig) (env : Env) (rc : Int) (so se : String)
    (hcfg : config.pools device_label = some pc)
    (himp : env.importOutcome = .completed rc so se) (hrc : rc ≠ 0) :
    import_decrypt_backup_export device_label config env =
      [.log ("Importing pool " ++ device_label),
       .cmd ["zpool", "import", device_label, "-N"] none,
       .logError ("An error occurred: " ++ pyStr (.calledProcessError ["zpool", "import", device_label, "-N"] rc so se)),
       .mailError ("Failed to import pool. Backup not yet run.\n\nError:\n" ++ se)] ∧
    (∀ env2 : Env, Event.cmd ["zpool", "import", device_label, "-N"] none ∈
      import_decrypt_backup_export device_label config env2) := by
  constructor
  · simp [import_decrypt_backup_export, import_pool, run_command, subprocess_run, hcfg, himp, hrc]
  · intro env2
    cases h2 : env2.importOutcome with
    | completed rc2 o2 e2 =>
      by_cases hz : rc2 = 0 <;>
        simp [import_decrypt_backup_export, import_pool, run_command, subprocess_run, hcfg, h2, hz]
    | raised m =>
      simp [import_decrypt_backup_export, import_pool, run_command, subprocess_run, hcfg, h2]

/-- Witness for C7 at a concrete failing import. -/
theorem import_failure_aborts_witness :
    import_decrypt_backup_export "tank"
        ⟨fun l => if l = "tank" then some ⟨none, ["tank"]⟩ else none, none⟩
        ⟨.completed 1 "" "cannot import pool", .completed 0 "" "", .finished 0 "" "", .completed 0 "" "", .completed 0 "" ""⟩ =
      [.log "Importing pool tank",
       .cmd ["zpool", "import", "tank", "-N"] none,
       .logError ("An error occurred: " ++ pyStr (.calledProcessError ["zpool", "import", "tank", "-N"] 1 "" "cannot import pool")),
       .mailError "Failed to import pool. Backup not yet run.\n\nError:\ncannot import pool"] :=
  (import_failure_aborts "tank"
    ⟨fun l => if l = "tank" then some ⟨none, ["tank"]⟩ else none, none⟩
    ⟨none, ["tank"]⟩
    ⟨.completed 1 "" "cannot import pool", .completed 0 "" "", .finished 0 "" "", .completed 0 "" "", .completed 0 "" ""⟩
    1 "" "cannot import pool" rfl rfl (by decide)).1

/-- Claim C4: for every argument vector, optional input and completed
external run, `run_command` returns a `CompletedProcess` as data — never an
exception — carrying the exit code, stdout and stderr; when the exit code is
nonzero it first logs an error message containing the raised
`CalledProcessError`. -/
theorem run_command_nonzero_returns_result (command : List String)
    (inp : Option String) (rc : Int) (out err : String) :
    (run_command command inp (.completed rc out err)).2 =
      .ok ⟨command, rc, out, err⟩ ∧
    (rc ≠ 0 → run_command command inp (.completed rc out err) =
      ([.cmd command inp,
        .logError ("An error occurred: " ++ pyStr (.calledProcessError command rc out err))],
       .ok ⟨command, rc, out, err⟩)) := by
  constructor
  · by_cases hz : rc = 0 <;> simp [run_command, subprocess_run, hz]
  · intro hz
    simp [run_command, subprocess_run, hz]

/-- Witness for C4 at a concrete nonzero exit. -/
theorem run_command_nonzero_returns_result_witness :
    run_command ["zpool", "export", "tank"] none (.completed 1 "out" "err") =
      ([.cmd ["zpool", "export", "tank"] none,
        .logError ("An error occurred: " ++ pyStr (.calledProcessError ["zpool", "export", "tank"] 1 "out" "err"))],
       .ok ⟨["zpool", "export", "tank"], 1, "out", "err"⟩) :=
  (run_command_nonzero_returns_result ["zpool", "export", "tank"] none 1 "out" "err").2
    (by decide)

/-- Full trace of a run that reaches the backup (decrypt skipped) and whose
read-only command exits nonzero: the run ends at the read-only Error
notification; the export outcome is never consulted. -/
lemma run_trace_rofail_nopass (device_label : String) (config : AppConfig)
    (pc : PoolConfig) (env : Env) (f : Nat) (bo be iso ise : String)
    (rc : Int) (rso rse : String)
    (hcfg : config.pools device_label = some pc)
    (hp : pc.passphrase = none ∨ pc.passphrase = some "")
    (himp : env.importOutcome = .completed 0 iso ise)
    (hbk : env.backupOutcome = .finished f bo be)
    (hro : env.readonlyOutcome = .completed rc rso rse) (hrc : rc ≠ 0) :
    import_decrypt_backup_export device_label config env =
      [.log ("Importing pool " ++ device_label),
       .cmd ["zpool", "import", device_label, "-N"] none,
       .log ("Starting ZFS-Autobackup for pool " ++ device_label
         ++ " with parameters:\nzfs-autobackup "
         ++ String.intercalate " " pc.autobackup_parameters),
       .backupRun pc.autobackup_parameters]
      ++ backup_warn_events config (f == 0) bo be
      ++ [.log ("Setting pool " ++ device_label ++ " to read-only"),
          .cmd ["zfs", "set", "readonly=on", device_label] none,
          .logError ("An error occurred: " ++ pyStr (.calledProcessError ["zfs", "set", "readonly=on", device_label] rc rso rse)),
          .mailError (readonly_fail_msg rse bo be)] := by
  rcases hp with hp | hp <;>
    simp [import_decrypt_backup_export, decrypt_and_backup, decrypt_stage,
      import_pool, set_pool_readonly, run_command, subprocess_run,
      run_zfs_autobackup, hcfg, hp, himp, hbk, hro, hrc]

/-- As `run_trace_rofail_nopass`, for a run whose decrypt stage runs with
exit 0. -/
lemma run_trace_rofail_pass (device_label : String) (config : AppConfig)
    (pc : PoolConfig) (env : Env) (p : String) (f : Nat)
    (bo be iso ise dso dse : String) (rc : Int) (rso rse : String)
    (hcfg : config.pools device_label = some pc)
    (hp : pc.passphrase = some p) (hpe : p ≠ "")
    (hdo : env.decryptOutcome = .completed 0 dso dse)
    (himp : env.importOutcome = .completed 0 iso ise)
    (hbk : env.backupOutcome = .finished f bo be)
    (hro : env.readonlyOutcome = .completed rc rso rse) (hrc : rc ≠ 0) :
    import_decrypt_backup_export device_label config env =
      [.log ("Importing pool " ++ device_label),
       .cmd ["zpool", "import", device_label, "-N"] none,
       .log ("Decrypting pool " ++ device_label),
       .cmd ["zfs", "load-key", device_label] (some p),
       .log ("Starting ZFS-Autobackup for pool " ++ device_label
         ++ " with parameters:\nzfs-autobackup "
         ++ String.intercalate " " pc.autobackup_parameters),
       .backupRun pc.autobackup_parameters]
      ++ backup_warn_events config (f == 0) bo be
      ++ [.log ("Setting pool " ++ device_label ++ " to read-only"),
          .cmd ["zfs", "set", "readonly=on", device_label] none,
          .logError ("An error occurred: " ++ pyStr (.calledProcessError ["zfs", "set", "readonly=on", device_label] rc rso rse)),
          .mailError (readonly_fail_msg rse bo be)] := by
  simp [import_decrypt_backup_export, decrypt_and_backup, decrypt_stage,
    import_pool, decrypt_pool, set_pool_readonly, run_command, subprocess_run,
    run_zfs_autobackup, hcfg, hp, hpe, hdo, himp, hbk, hro, hrc]

lemma getLast?_append_quad (p1 w : List Event) (a b c d : Event) :
    (p1 ++ w ++ [a, b, c, d]).getLast? = some d := by
  have h1 : p1 ++ w ++ [a, b, c, d] = (p1 ++ w ++ [a, b, c]) ++ [d] := by simp
  rw [h1, List.getLast?_concat]

/-- Claim C2: when the read-only command exits nonzero, the export command is
never invoked, the read-only Error notification — carrying the read-only
stderr together with the captured backup stdout/stderr — is sent exactly
once, as the final action of the run, and no completion (Info) notification
is sent.  (A degraded backup additionally has its own earlier backup Error
notification, reflected in the Error-notification count.) -/
theorem readonly_failure_blocks_export (device_label : String)
    (config : AppConfig) (pc : PoolConfig) (env : Env) (f : Nat)
    (bo be iso ise rso rse : String) (rc : Int)
    (hcfg : config.pools device_label = some pc)
    (hdec : DecryptOk pc env)
    (himp : env.importOutcome = .completed 0 iso ise)
    (hbk : env.backupOutcome = .finished f bo be)
    (hro : env.readonlyOutcome = .completed rc rso rse) (hrc : rc ≠ 0) :
    (∀ i, Event.cmd ["zpool", "export", device_label] i ∉
      import_decrypt_backup_export device_label config env) ∧
    Event.mailError (readonly_fail_msg rse bo be) ∈
      import_decrypt_backup_export device_label config env ∧
    (import_decrypt_backup_export device_label config env).getLast? =
      some (.mailError (readonly_fail_msg rse bo be)) ∧
    (import_decrypt_backup_export device_label config env).countP isMailInfo = 0 ∧
    (import_decrypt_backup_export device_label config env).countP isMailError =
      (if (f ≠ 0 ∨ be ≠ "") ∧ config.email ≠ none then 2 else 1) := by
  obtain hp | hp | ⟨p, o, e, hp, hpe, hdo⟩ := decrypt_cases pc env hdec
  on_goal 1 => rw [run_trace_rofail_nopass device_label config pc env f bo be iso ise rc rso rse hcfg (Or.inl hp) himp hbk hro hrc]
  on_goal 2 => rw [run_trace_rofail_nopass device_label config pc env f bo be iso ise rc rso rse hcfg (Or.inr hp) himp hbk hro hrc]
  on_goal 3 => rw [run_trace_rofail_pass device_label config pc env p f bo be iso ise o e rc rso rse hcfg hp hpe hdo himp hbk hro hrc]
  all_goals
    refine ⟨?_, ?_, ?_, ?_, ?_⟩
    · intro i hmem
      simp only [List.mem_append, List.mem_cons, List.not_mem_nil, or_false] at hmem
      repeat' rcases hmem with hmem | hmem
      all_goals
        first
          | (rcases warn_events_shape config (f == 0) bo be _ hmem with ⟨m, hm⟩ | ⟨m, hm⟩ <;>
              simp at hm)
          | simp at hmem
    · simp
    · exact getLast?_append_quad _ _ _ _ _ _
    · simp [List.countP_append, warn_countP_mailInfo, isMailInfo]
    · have hiff : (((f == 0) = false ∨ be ≠ "") ∧ config.email ≠ none)
          ↔ ((f ≠ 0 ∨ be ≠ "") ∧ config.email ≠ none) := by
        simp
      by_cases hc : (f ≠ 0 ∨ be ≠ "") ∧ config.email ≠ none
      · simp only [List.countP_append, warn_countP_mailError, hiff, if_pos hc, if_pos hc]
        simp [isMailError]
      · simp only [List.countP_append, warn_countP_mailError, hiff, if_neg hc, if_neg hc]
        simp [isMailError]

/-- Witness for C2: degraded backup (one failed dataset, stderr present),
read-only exits 1, email configured — the run ends at the read-only Error
notification and two Error notifications were sent in total. -/
theorem readonly_failure_blocks_export_witness :
    (∀ i, Event.cmd ["zpool", "export", "tank"] i ∉
      import_decrypt_backup_export "tank"
        ⟨fun l => if l = "tank" then some ⟨none, ["tank"]⟩ else none, some ⟨true⟩⟩
        ⟨.completed 0 "" "", .completed 0 "" "", .finished 1 "bout" "warn",
         .completed 1 "" "ro-err", .completed 0 "" ""⟩) ∧
    (import_decrypt_backup_export "tank"
        ⟨fun l => if l = "tank" then some ⟨none, ["tank"]⟩ else none, some ⟨true⟩⟩
        ⟨.completed 0 "" "", .completed 0 "" "", .finished 1 "bout" "warn",
         .completed 1 "" "ro-err", .completed 0 "" ""⟩).getLast? =
      some (.mailError (readonly_fail_msg "ro-err" "bout" "warn")) ∧
    (import_decrypt_backup_export "tank"
        ⟨fun l => if l = "tank" then some ⟨none, ["tank"]⟩ else none, some ⟨true⟩⟩
        ⟨.completed 0 "" "", .completed 0 "" "", .finished 1 "bout" "warn",
         .completed 1 "" "ro-err", .completed 0 "" ""⟩).countP isMailError = 2 := by
  have h := readonly_failure_blocks_export "tank"
    ⟨fun l => if l = "tank" then some ⟨none, ["tank"]⟩ else none, some ⟨true⟩⟩
    ⟨none, ["tank"]⟩
    ⟨.completed 0 "" "", .completed 0 "" "", .finished 1 "bout" "warn",
     .completed 1 "" "ro-err", .completed 0 "" ""⟩
    1 "bout" "warn" "" "" "" "ro-err" 1 rfl
    (fun p hp => Option.noConfusion hp) rfl rfl rfl (by decide)
  refine ⟨h.1, h.2.2.1, ?_⟩
  rw [h.2.2.2.2]
  decide

/-- Claim C10: whenever the read-only command exits nonzero, the Error
notification sent contains the literal text "Backup was successful:"
followed by the captured backup stdout, regardless of the backup result
(the hypotheses place no constraint on the failed-dataset count or
stderr). -/
theorem readonly_failure_message_claims_success (device_label : String)
    (config : AppConfig) (pc : PoolConfig) (env : Env) (f : Nat)
    (bo be iso ise rso rse : String) (rc : Int)
    (hcfg : config.pools device_label = some pc)
    (hdec : DecryptOk pc env)
    (himp : env.importOutcome = .completed 0 iso ise)
    (hbk : env.backupOutcome = .finished f bo be)
    (hro : env.readonlyOutcome = .completed rc rso rse) (hrc : rc ≠ 0) :
    Event.mailError (readonly_fail_msg rse bo be) ∈
      import_decrypt_backup_export device_label config env ∧
    ∃ pre suf, readonly_fail_msg rse bo be =
      pre ++ ("Backup was successful:\n" ++ bo) ++ suf := by
  constructor
  · obtain hp | hp | ⟨p, o, e, hp, hpe, hdo⟩ := decrypt_cases pc env hdec
    on_goal 1 => rw [run_trace_rofail_nopass device_label config pc env f bo be iso ise rc rso rse hcfg (Or.inl hp) himp hbk hro hrc]
    on_goal 2 => rw [run_trace_rofail_nopass device_label config pc env f bo be iso ise rc rso rse hcfg (Or.inr hp) himp hbk hro hrc]
    on_goal 3 => rw [run_trace_rofail_pass device_label config pc env p f bo be iso ise o e rc rso rse hcfg hp hpe hdo himp hbk hro hrc]
    all_goals simp
  · refine ⟨"Failed to set pool readonly. Disk will not be exported automatically.\n\nError:\n"
      ++ rse ++ "\n\n", "\n\n" ++ be, ?_⟩
    simp only [readonly_fail_msg, String.append_assoc]
    rfl

/-- Witness for C10 at a degraded backup (failed datasets, stderr present):
the notification still claims the backup was successful. -/
theorem readonly_failure_message_claims_success_witness :
    Event.mailError (readonly_fail_msg "ro-err" "partial-output" "boom") ∈
      import_decrypt_backup_export "tank"
        ⟨fun l => if l = "tank" then some ⟨none, ["tank"]⟩ else none, none⟩
        ⟨.completed 0 "" "", .completed 0 "" "", .finished 2 "partial-output" "boom",
         .completed 1 "" "ro-err", .completed 0 "" ""⟩ ∧
    ∃ pre suf, readonly_fail_msg "ro-err" "partial-output" "boom" =
      pre ++ ("Backup was successful:\npartial-output" : String) ++ suf :=
  (readonly_failure_message_claims_success "tank"
    ⟨fun l => if l = "tank" then some ⟨none, ["tank"]⟩ else none, none⟩
    ⟨none, ["tank"]⟩
    ⟨.completed 0 "" "", .completed 0 "" "", .finished 2 "partial-output" "boom",
     .completed 1 "" "ro-err", .completed 0 "" ""⟩
    2 "partial-output" "boom" "" "" "" "ro-err" 1 rfl
    (fun p hp => Option.noConfusion hp) rfl rfl rfl (by decide))

lemma warn_countP_mailEvent_none (config : AppConfig) (success : Bool)
    (o e : String) (h : config.email = none) :
    (backup_warn_events config success o e).countP isMailEvent = 0 := by
  by_cases hdeg : success = false ∨ e ≠ ""
  · simp [backup_warn_events, hdeg, h, isMailEvent, isMailInfo, isMailError, isMailException]
  · by_cases hbo : o = "" <;>
      simp [backup_warn_events, hdeg, hbo, isMailEvent, isMailInfo, isMailError, isMailException]

lemma completion_countP_mailEvent_none (config : AppConfig) (l c : String)
    (h : config.email = none) :
    (completion_events config l c).countP isMailEvent = 0 := by
  simp [completion_events, h, isMailEvent, isMailInfo, isMailError, isMailException]

/-- Claim C8: on a run reaching a successful export, the final notification
is: a log line only when no email is configured (and no mail of any category
is sent in that case); an Info mail embedding the captured backup stdout
when `send_autobackup_output` is set; and the bare completion Info mail —
whose text is the fixed completion sentence, independent of the backup
stdout — otherwise. -/
theorem completion_notification_variants (device_label : String)
    (config : AppConfig) (pc : PoolConfig) (env : Env) (f : Nat)
    (bo be iso ise rso rse eso ese : String)
    (hcfg : config.pools device_label = some pc)
    (hdec : DecryptOk pc env)
    (himp : env.importOutcome = .completed 0 iso ise)
    (hbk : env.backupOutcome = .finished f bo be)
    (hro : env.readonlyOutcome = .completed 0 rso rse)
    (hex : env.exportOutcome = .completed 0 eso ese) :
    (config.email = none →
      (import_decrypt_backup_export device_label config env).getLast? =
        some (.log ("Backup finished. You can safely unplug the disk " ++ device_label ++ " now.")) ∧
      (import_decrypt_backup_export device_label config env).countP isMailEvent = 0) ∧
    (∀ em, config.email = some em →
      (em.send_autobackup_output = true →
        (import_decrypt_backup_export device_label config env).getLast? =
          some (.mailInfo ("Backup finished. You can safely unplug the disk " ++ device_label
            ++ " now.\n\nZFS-Autobackup output:\n" ++ bo))) ∧
      (em.send_autobackup_output = false →
        (import_decrypt_backup_export device_label config env).getLast? =
          some (.mailInfo ("Backup finished. You can safely unplug the disk "
            ++ device_label ++ " now.")))) := by
  obtain hp | hp | ⟨p, o, e, hp, hpe, hdo⟩ := decrypt_cases pc env hdec
  on_goal 1 => rw [run_trace_nopass device_label config pc env f bo be iso ise 0 rso rse 0 eso ese hcfg (Or.inl hp) himp hbk hro hex]
  on_goal 2 => rw [run_trace_nopass device_label config pc env f bo be iso ise 0 rso rse 0 eso ese hcfg (Or.inr hp) himp hbk hro hex]
  on_goal 3 => rw [run_trace_pass device_label config pc env p f bo be iso ise o e 0 rso rse 0 eso ese hcfg hp hpe hdo himp hbk hro hex]
  all_goals
    simp only [reduceIte]
    constructor
    · intro hem
      constructor
      · exact (getLast?_append_completion _ _ _ _ config device_label bo).trans
          (by simp [completion_events, hem])
      · simp [List.countP_append, warn_countP_mailEvent_none config _ _ _ hem,
          completion_countP_mailEvent_none config _ _ hem,
          isMailEvent, isMailInfo, isMailError, isMailException]
    · intro em hem
      constructor
      · intro hso
        exact (getLast?_append_completion _ _ _ _ config device_label bo).trans
          (by simp [completion_events, hem, hso])
      · intro hso
        exact (getLast?_append_completion _ _ _ _ config device_label bo).trans
          (by simp [completion_events, hem, hso])

/-- Witness for C8: email configured with output inclusion disabled — the
final event is the bare completion Info mail. -/
theorem completion_notification_variants_witness :
    (import_decrypt_backup_export "tank"
        ⟨fun l => if l = "tank" then some ⟨none, ["tank"]⟩ else none, some ⟨false⟩⟩
        ⟨.completed 0 "" "", .completed 0 "" "", .finished 0 "bout" "",
         .completed 0 "" "", .completed 0 "" ""⟩).getLast? =
      some (.mailInfo "Backup finished. You can safely unplug the disk tank now.") :=
  ((completion_notification_variants "tank"
    ⟨fun l => if l = "tank" then some ⟨none, ["tank"]⟩ else none, some ⟨false⟩⟩
    ⟨none, ["tank"]⟩
    ⟨.completed 0 "" "", .completed 0 "" "", .finished 0 "bout" "",
     .completed 0 "" "", .completed 0 "" ""⟩
    0 "bout" "" "" "" "" "" "" "" rfl
    (fun p hp => Option.noConfusion hp) rfl rfl rfl rfl).2 ⟨false⟩ rfl).2 rfl

/-- Witness for C1: one failed dataset with empty stderr, email configured
with output inclusion enabled — the degraded Error notification is sent,
read-only and export still run, and the completion notification follows. -/
theorem backup_degraded_no_abort_witness :
    (import_decrypt_backup_export "tank"
        ⟨fun l => if l = "tank" then some ⟨none, ["tank"]⟩ else none, some ⟨true⟩⟩
        ⟨.completed 0 "" "", .completed 0 "" "", .finished 1 "bout" "",
         .completed 0 "" "", .completed 0 "" ""⟩).countP isMailError = 1 ∧
    Event.cmd ["zpool", "export", "tank"] none ∈
      import_decrypt_backup_export "tank"
        ⟨fun l => if l = "tank" then some ⟨none, ["tank"]⟩ else none, some ⟨true⟩⟩
        ⟨.completed 0 "" "", .completed 0 "" "", .finished 1 "bout" "",
         .completed 0 "" "", .completed 0 "" ""⟩ := by
  have h := backup_degraded_no_abort "tank"
    ⟨fun l => if l = "tank" then some ⟨none, ["tank"]⟩ else none, some ⟨true⟩⟩
    ⟨none, ["tank"]⟩
    ⟨.completed 0 "" "", .completed 0 "" "", .finished 1 "bout" "",
     .completed 0 "" "", .completed 0 "" ""⟩
    1 "bout" "" "" "" "" "" "" "" rfl
    (fun p hp => Option.noConfusion hp) rfl rfl rfl rfl
  exact ⟨((h.1 (Or.inl (by decide))).2 ⟨true⟩ rfl).1, h.2.2.2.1⟩

lemma decrypt_stage_loadkey_mem (l : String) (pc : PoolConfig) (env : Env)
    (p : String) (hp : pc.passphrase = some p) (hpe : p ≠ "") :
    Event.cmd ["zfs", "load-key", l] (some p) ∈ (decrypt_stage l pc env).1 := by
  rcases hdo : env.decryptOutcome with ⟨rc, so, se⟩ | m
  · by_cases hz : rc = 0 <;>
      simp [decrypt_stage, decrypt_pool, run_command, subprocess_run, hp, hpe, hdo, hz]
  · simp [decrypt_stage, decrypt_pool, run_command, subprocess_run, hp, hpe, hdo]

lemma dab_mem_of_stage (l : String) (pc : PoolConfig) (config : AppConfig)
    (env : Env) (x : Event) (hx : x ∈ (decrypt_stage l pc env).1) :
    x ∈ (decrypt_and_backup l pc config env).1 := by
  simp only [decrypt_and_backup]
  rcases hd : (decrypt_stage l pc env).2 with de | dok
  · simp only [hd]
    simp [List.mem_append, hx]
  · rcases dok with _ | u
    · simp only [hd]
      simp [hx]
    · simp only [hd]
      rcases hb2 : (run_zfs_autobackup pc.autobackup_parameters env.backupOutcome).2 with be2 | ⟨s, so, se⟩
      · simp only [hb2]
        simp [List.mem_append, hx]
      · simp only [hb2]
        rcases hr2 : (set_pool_readonly l env.readonlyOutcome).2 with re2 | rr
        · simp only [hr2]
          simp [List.mem_append, hx]
        · simp only [hr2]
          by_cases hz : rr.returncode ≠ 0
          · rw [if_pos hz]
            simp [List.mem_append, hx]
          · rw [if_neg hz]
            simp [List.mem_append, hx]

lemma pipeline_prefix (l : String) (config : AppConfig) (pc : PoolConfig)
    (env : Env) (iso ise : String)
    (hcfg : config.pools l = some pc)
    (himp : env.importOutcome = .completed 0 iso ise) :
    ∃ rest, import_decrypt_backup_export l config env =
      Event.log ("Importing pool " ++ l) :: Event.cmd ["zpool", "import", l, "-N"] none ::
        ((decrypt_and_backup l pc config env).1 ++ rest) := by
  simp only [import_decrypt_backup_export, import_pool, run_command, subprocess_run,
    hcfg, himp]
  norm_num

/-- Claim C5: the load-key command is invoked (with the passphrase as its
input data) exactly when a non-empty passphrase is configured, and a nonzero
decrypt exit terminates the run with one Error notification and no backup,
read-only or export invocation. -/
theorem decrypt_iff_nonempty_passphrase (device_label : String)
    (config : AppConfig) (pc : PoolConfig) (env : Env) (iso ise : String)
    (hcfg : config.pools device_label = some pc)
    (himp : env.importOutcome = .completed 0 iso ise) :
    (∀ p, pc.passphrase = some p → p ≠ "" →
      Event.cmd ["zfs", "load-key", device_label] (some p) ∈
        import_decrypt_backup_export device_label config env) ∧
    ((pc.passphrase = none ∨ pc.passphrase = some "") →
      ∀ i, Event.cmd ["zfs", "load-key", device_label] i ∉
        import_decrypt_backup_export device_label config env) ∧
    (∀ p rc dso dse, pc.passphrase = some p → p ≠ "" →
      env.decryptOutcome = .completed rc dso dse → rc ≠ 0 →
      import_decrypt_backup_export device_label config env =
        [.log ("Importing pool " ++ device_label),
         .cmd ["zpool", "import", device_label, "-N"] none,
         .log ("Decrypting pool " ++ device_label),
         .cmd ["zfs", "load-key", device_label] (some p),
         .logError ("An error occurred: " ++ pyStr (.calledProcessError ["zfs", "load-key", device_label] rc dso dse)),
         .mailError ("Failed to decrypt pool. Backup not yet run.\n\nError:\n" ++ dse)]) := by
  refine ⟨?_, ?_, ?_⟩
  · intro p hp hpe
    obtain ⟨rest, htr⟩ := pipeline_prefix device_label config pc env iso ise hcfg himp
    rw [htr]
    have hm := dab_mem_of_stage device_label pc config env _
      (decrypt_stage_loadkey_mem device_label pc env p hp hpe)
    simp [List.mem_cons, List.mem_append, hm]
  · intro hemp i hmem
    refine pipeline_all device_label config pc env
      (fun x => x ≠ Event.cmd ["zfs", "load-key", device_label] i) hcfg
      (by simp) (by simp) (by simp) (by simp) (by simp) (by simp) (by simp)
      (fun p hp hpe => ?_) (by simp) (by simp) _ hmem rfl
    rcases hemp with h | h
    · rw [h] at hp
      exact Option.noConfusion hp
    · rw [h] at hp
      injection hp with hpq
      exact absurd hpq.symm hpe
  · intro p rc dso dse hp hpe hdo hrc
    simp [import_decrypt_backup_export, decrypt_and_backup, decrypt_stage,
      import_pool, decrypt_pool, run_command, subprocess_run,
      hcfg, hp, hpe, hdo, himp, hrc]

/-- Witness for C5: passphrase configured, load-key exits 1 — the run is
exactly import, load-key with the passphrase as input, the runner error log,
and the decrypt Error notification. -/
theorem decrypt_iff_nonempty_passphrase_witness :
    import_decrypt_backup_export "tank"
        ⟨fun l => if l = "tank" then some ⟨some "pw", ["tank"]⟩ else none, none⟩
        ⟨.completed 0 "" "", .completed 1 "" "wrong key", .finished 0 "" "",
         .completed 0 "" "", .completed 0 "" ""⟩ =
      [.log "Importing pool tank",
       .cmd ["zpool", "import", "tank", "-N"] none,
       .log "Decrypting pool tank",
       .cmd ["zfs", "load-key", "tank"] (some "pw"),
       .logError ("An error occurred: " ++ pyStr (.calledProcessError ["zfs", "load-key", "tank"] 1 "" "wrong key")),
       .mailError "Failed to decrypt pool. Backup not yet run.\n\nError:\nwrong key"] :=
  (decrypt_iff_nonempty_passphrase "tank"
    ⟨fun l => if l = "tank" then some ⟨some "pw", ["tank"]⟩ else none, none⟩
    ⟨some "pw", ["tank"]⟩
    ⟨.completed 0 "" "", .completed 1 "" "wrong key", .finished 0 "" "",
     .completed 0 "" "", .completed 0 "" ""⟩
    "" "" rfl rfl).2.2 "pw" 1 "" "wrong key" rfl (by decide) rfl (by decide)

/-- Claim C3 (code bug): when an exception is raised in the inner phase
before the backup call has bound `stdout`/`stderr` (here: the load-key
invocation raises `FileNotFoundError`), the inner except handler itself
raises `UnboundLocalError` while interpolating the unbound locals, so no
Exception notification is sent by the inner phase; the outer handler then
sends a single Error notification that reports the `UnboundLocalError`
rather than the original exception.  No exception escapes the top-level
entry point (the trace below is the complete run). -/
theorem inner_phase_unbound_local_eval :
    (decrypt_and_backup "tank" ⟨some "pw", ["tank"]⟩
        ⟨fun l => if l = "tank" then some ⟨some "pw", ["tank"]⟩ else none, some ⟨true⟩⟩
        ⟨.completed 0 "" "", .raised "FileNotFoundError: zfs", .finished 0 "" "",
         .completed 0 "" "", .completed 0 "" ""⟩).2 =
      .error (.unboundLocal "stdout") ∧
    (∀ m, Event.mailException m ∉
      (decrypt_and_backup "tank" ⟨some "pw", ["tank"]⟩
        ⟨fun l => if l = "tank" then some ⟨some "pw", ["tank"]⟩ else none, some ⟨true⟩⟩
        ⟨.completed 0 "" "", .raised "FileNotFoundError: zfs", .finished 0 "" "",
         .completed 0 "" "", .completed 0 "" ""⟩).1) ∧
    (import_decrypt_backup_export "tank"
        ⟨fun l => if l = "tank" then some ⟨some "pw", ["tank"]⟩ else none, some ⟨true⟩⟩
        ⟨.completed 0 "" "", .raised "FileNotFoundError: zfs", .finished 0 "" "",
         .completed 0 "" "", .completed 0 "" ""⟩).countP isMailException = 0 ∧
    (import_decrypt_backup_export "tank"
        ⟨fun l => if l = "tank" then some ⟨some "pw", ["tank"]⟩ else none, some ⟨true⟩⟩
        ⟨.completed 0 "" "", .raised "FileNotFoundError: zfs", .finished 0 "" "",
         .completed 0 "" "", .completed 0 "" ""⟩).countP isMailError = 1 ∧
    (import_decrypt_backup_export "tank"
        ⟨fun l => if l = "tank" then some ⟨some "pw", ["tank"]⟩ else none, some ⟨true⟩⟩
        ⟨.completed 0 "" "", .raised "FileNotFoundError: zfs", .finished 0 "" "",
         .completed 0 "" "", .completed 0 "" ""⟩).getLast? =
      some (outer_handler_event (.unboundLocal "stdout")) := by
  refine ⟨rfl, ?_, rfl, rfl, rfl⟩
  intro m
  simp [decrypt_and_backup, decrypt_stage, decrypt_pool, run_command,
    subprocess_run, inner_handler]

/-- Erases the process-input channel from an observation: the part of a
trace an outside observer (process listings, logs, mails) can see. -/
def strip_input : Event → Event
  | .cmd a _ => .cmd a none
  | x => x

lemma warn_congr (config1 config2 : AppConfig) (s : Bool) (o e : String)
    (hem : config1.email = config2.email) :
    backup_warn_events config1 s o e = backup_warn_events config2 s o e := by
  simp only [backup_warn_events, hem]

lemma completion_congr (config1 config2 : AppConfig) (l c : String)
    (hem : config1.email = config2.email) :
    completion_events config1 l c = completion_events config2 l c := by
  simp only [completion_events, hem]

lemma decrypt_stage_strip (l : String) (pc1 pc2 : PoolConfig) (env : Env)
    (p1 p2 : String)
    (hp1 : pc1.passphrase = some p1) (hp2 : pc2.passphrase = some p2)
    (hpe1 : p1 ≠ "") (hpe2 : p2 ≠ "") :
    (decrypt_stage l pc1 env).1.map strip_input =
      (decrypt_stage l pc2 env).1.map strip_input ∧
    (decrypt_stage l pc1 env).2 = (decrypt_stage l pc2 env).2 := by
  rcases hdo : env.decryptOutcome with ⟨rc, so, se⟩ | m
  · by_cases hz : rc = 0 <;>
      simp [decrypt_stage, decrypt_pool, run_command, subprocess_run,
        hp1, hp2, hpe1, hpe2, hdo, hz, strip_input]
  · simp [decrypt_stage, decrypt_pool, run_command, subprocess_run,
      hp1, hp2, hpe1, hpe2, hdo, strip_input]

lemma dab_strip (l : String) (pc1 pc2 : PoolConfig) (config1 config2 : AppConfig)
    (env : Env) (p1 p2 : String)
    (hem : config1.email = config2.email)
    (hp1 : pc1.passphrase = some p1) (hp2 : pc2.passphrase = some p2)
    (hpe1 : p1 ≠ "") (hpe2 : p2 ≠ "")
    (hparams : pc1.autobackup_parameters = pc2.autobackup_parameters) :
    (decrypt_and_backup l pc1 config1 env).1.map strip_input =
      (decrypt_and_backup l pc2 config2 env).1.map strip_input ∧
    (decrypt_and_backup l pc1 config1 env).2 = (decrypt_and_backup l pc2 config2 env).2 := by
  obtain ⟨hs1, hs2⟩ := decrypt_stage_strip l pc1 pc2 env p1 p2 hp1 hp2 hpe1 hpe2
  simp only [decrypt_and_backup]
  rcases hd : (decrypt_stage l pc1 env).2 with de | dok
  · have hd2 := hs2.symm.trans hd
    simp only [hd, hd2]
    refine ⟨?_, by first | trivial | rfl⟩
    simp [List.map_append, hs1]
  · rcases dok with _ | u
    · have hd2 := hs2.symm.trans hd
      simp only [hd, hd2]
      exact ⟨hs1, trivial⟩
    · have hd2 := hs2.symm.trans hd
      simp only [hd, hd2, hparams]
      rcases hb2 : (run_zfs_autobackup pc2.autobackup_parameters env.backupOutcome).2 with be2 | ⟨s, so, se⟩
      · simp only [hb2]
        refine ⟨?_, by first | trivial | rfl⟩
        simp [List.map_append, hs1]
      · simp only [hb2]
        rcases hr2 : (set_pool_readonly l env.readonlyOutcome).2 with re2 | rr
        · simp only [hr2]
          refine ⟨?_, by first | trivial | rfl⟩
          simp [List.map_append, hs1, warn_congr config1 config2 _ _ _ hem]
        · simp only [hr2]
          by_cases hz : rr.returncode ≠ 0
          · rw [if_pos hz, if_pos hz]
            refine ⟨?_, by first | trivial | rfl⟩
            simp [List.map_append, hs1, warn_congr config1 config2 _ _ _ hem]
          · rw [if_neg hz, if_neg hz]
            refine ⟨?_, by first | trivial | rfl⟩
            simp [List.map_append, hs1, warn_congr config1 config2 _ _ _ hem]

/-- Claim C9: the passphrase is delivered only as the input data of the
load-key invocation, and nothing else observable depends on it: (i) every
command event carrying input data is the load-key command with exactly the
configured passphrase (so the passphrase is never an element of an argument
vector, whose possible shapes contain no input-derived strings), and
(ii) two runs whose configurations differ only in the (non-empty) passphrase
produce identical traces once the input channel is erased — so no logged or
mailed text depends on the passphrase. -/
theorem passphrase_noninterference (device_label : String)
    (config1 config2 : AppConfig) (pc1 pc2 : PoolConfig) (env : Env)
    (p1 p2 : String)
    (hcfg1 : config1.pools device_label = some pc1)
    (hcfg2 : config2.pools device_label = some pc2)
    (hem : config1.email = config2.email)
    (hp1 : pc1.passphrase = some p1) (hp2 : pc2.passphrase = some p2)
    (hpe1 : p1 ≠ "") (hpe2 : p2 ≠ "")
    (hparams : pc1.autobackup_parameters = pc2.autobackup_parameters) :
    (import_decrypt_backup_export device_label config1 env).map strip_input =
      (import_decrypt_backup_export device_label config2 env).map strip_input ∧
    (∀ a q, Event.cmd a (some q) ∈ import_decrypt_backup_export device_label config1 env →
      a = ["zfs", "load-key", device_label] ∧ q = p1) := by
  obtain ⟨hb1, hb2⟩ := dab_strip device_label pc1 pc2 config1 config2 env p1 p2
    hem hp1 hp2 hpe1 hpe2 hparams
  constructor
  · simp only [import_decrypt_backup_export, hcfg1, hcfg2]
    rcases hi2 : (import_pool device_label env.importOutcome).2 with ie | ir
    · simp only [hi2]
    · simp only [hi2]
      by_cases hz : ir.returncode ≠ 0
      · rw [if_pos hz, if_pos hz]
      · rw [if_neg hz, if_neg hz]
        rcases hdb : (decrypt_and_backup device_label pc1 config1 env).2 with de | dok
        · have hdb2 := hb2.symm.trans hdb
          simp only [hdb, hdb2]
          simp [List.map_append, hb1]
        · rcases dok with _ | captured
          · have hdb2 := hb2.symm.trans hdb
            simp only [hdb, hdb2]
            simp [List.map_append, hb1]
          · have hdb2 := hb2.symm.trans hdb
            simp only [hdb, hdb2]
            rcases he2 : (export_pool device_label env.exportOutcome).2 with ee | er
            · simp only [he2]
              simp [List.map_append, hb1]
            · simp only [he2]
              by_cases hez : er.returncode ≠ 0
              · rw [if_pos hez, if_pos hez]
                simp [List.map_append, hb1]
              · rw [if_neg hez, if_neg hez]
                simp [List.map_append, hb1,
                  completion_congr config1 config2 device_label captured hem]
  · intro a q hmem
    refine pipeline_all device_label config1 pc1 env
      (fun x => ∀ a2 q2, x = Event.cmd a2 (some q2) →
        a2 = ["zfs", "load-key", device_label] ∧ q2 = p1) hcfg1
      (by simp) (by simp) (by simp) (by simp) (by simp) (by simp)
      (by intro a2 q2 h; simp at h)
      (fun p hp hpe => ?_)
      (by intro a2 q2 h; simp at h)
      (by intro a2 q2 h; simp at h)
      _ hmem a q rfl
    rw [hp1] at hp
    injection hp with hpp
    intro a2 q2 hq
    injection hq with ha hi
    injection hi with hiq
    exact ⟨ha.symm, (hpp.trans hiq).symm⟩

/-- Witness for C9: two configurations differing only in the passphrase
(pw-one vs pw-two) yield input-erased traces that are equal. -/
theorem passphrase_noninterference_witness :
    (import_decrypt_backup_export "tank"
        ⟨fun l => if l = "tank" then some ⟨some "pw-one", ["tank"]⟩ else none, some ⟨true⟩⟩
        ⟨.completed 0 "" "", .completed 0 "" "", .finished 0 "out" "",
         .completed 0 "" "", .completed 0 "" ""⟩).map strip_input =
      (import_decrypt_backup_export "tank"
        ⟨fun l => if l = "tank" then some ⟨some "pw-two", ["tank"]⟩ else none, some ⟨true⟩⟩
        ⟨.completed 0 "" "", .completed 0 "" "", .finished 0 "out" "",
         .completed 0 "" "", .completed 0 "" ""⟩).map strip_input :=
  (passphrase_noninterference "tank"
    ⟨fun l => if l = "tank" then some ⟨some "pw-one", ["tank"]⟩ else none, some ⟨true⟩⟩
    ⟨fun l => if l = "tank" then some ⟨some "pw-two", ["tank"]⟩ else none, some ⟨true⟩⟩
    ⟨some "pw-one", ["tank"]⟩ ⟨some "pw-two", ["tank"]⟩
    ⟨.completed 0 "" "", .completed 0 "" "", .finished 0 "out" "",
     .completed 0 "" "", .completed 0 "" ""⟩
    "pw-one" "pw-two" rfl rfl rfl rfl rfl (by decide) (by decide) rfl).1
